import Mathlib

/-!
Shallow embedding of `src/vocab.py` (vocabulary.com audio downloader).

The program has three functions:
  * `get_audio_token query` — GET the dictionary page and scan it with the
    regex `"([A-Z]/[A-Z0-9]+)"` for the first quoted audio token;
  * `download_audio token query output_dir` — GET the audio file, derive a
    sanitized filename from the query, create the output directory and write
    the bytes;
  * `main` — sequence the two and exit non-zero on failure.

Effects (HTTP requests, mkdir, file writes, prints) are made explicit: each
function takes an `Env` describing how the outside world answers its calls and
returns, alongside its Python return value, the list of `Action`s it performed,
in order.  An uncaught Python exception is modelled as `Except.error`; the
Python regex/str functions are modelled over their ASCII fragment (the embedded
character classes agree with Python's on every ASCII character).
-/

namespace Vocab

/-- Character class `[A-Z]` of the token regex. -/
def isUpperCh (c : Char) : Bool := 'A' ≤ c && c ≤ 'Z'

/-- Character class `[A-Z0-9]` of the token regex. -/
def isUpperDigit (c : Char) : Bool := isUpperCh c || ('0' ≤ c && c ≤ '9')

/-- Python's regex class `\s` (ASCII fragment): space, tab, newline, carriage
return, vertical tab, form feed.  Also the characters removed from both ends
by `str.strip()`. -/
def isReSpace (c : Char) : Bool :=
  c = ' ' || c = '\t' || c = '\n' || c = '\r' || c = '\x0b' || c = '\x0c'

/-- Python's regex class `\w` (ASCII fragment): alphanumerics and underscore. -/
def isWordChar (c : Char) : Bool := c.isAlphanum || c = '_'

/-- Python's regex class `[-\s]` used by the second substitution in
`download_audio`. -/
def isDashSpace (c : Char) : Bool := c = '-' || isReSpace c

/-- Python `str.strip()` (ASCII whitespace fragment): drop leading and
trailing whitespace. -/
def pyStrip (s : String) : String :=
  String.mk (((s.data.dropWhile isReSpace).reverse.dropWhile isReSpace).reverse)

/-- Characters `urllib.parse.quote` leaves unescaped with its default
`safe='/'`: ASCII letters and digits, `_.-~`, and `/`. -/
def quoteSafe (c : Char) : Bool :=
  c.isAlphanum || c = '_' || c = '.' || c = '-' || c = '~' || c = '/'

/-- UTF-8 encoding of one character, as byte values. -/
def utf8Bytes (c : Char) : List Nat :=
  let n := c.toNat
  if n < 0x80 then [n]
  else if n < 0x800 then
    [0xC0 + n / 0x40, 0x80 + n % 0x40]
  else if n < 0x10000 then
    [0xE0 + n / 0x1000, 0x80 + n / 0x40 % 0x40, 0x80 + n % 0x40]
  else
    [0xF0 + n / 0x40000, 0x80 + n / 0x1000 % 0x40, 0x80 + n / 0x40 % 0x40,
      0x80 + n % 0x40]

/-- Uppercase hexadecimal digit for a value below 16. -/
def hexDigit (n : Nat) : Char :=
  if n < 10 then Char.ofNat (48 + n) else Char.ofNat (55 + n)

/-- Percent-escape of a single byte, uppercase hex as Python produces. -/
def percentByte (b : Nat) : List Char :=
  ['%', hexDigit (b / 16), hexDigit (b % 16)]

/-- Python `urllib.parse.quote` with the default `safe='/'`: safe characters
pass through, every other character is UTF-8 encoded and each byte
percent-escaped. -/
def quote (s : String) : String :=
  String.mk (s.data.foldr
    (fun c acc =>
      (if quoteSafe c then [c] else (utf8Bytes c).foldr
        (fun b acc2 => percentByte b ++ acc2) []) ++ acc)
    [])

/-- The fixed browser-emulation header set `HEADERS` of the script. -/
def HEADERS : List (String × String) :=
  [("User-Agent", "Mozilla/5.0 (Macintosh; Intel Mac OS X 10_15_7) AppleWebKit/537.36 (KHTML, like Gecko) Chrome/137.0.0.0 Safari/537.36"),
   ("Accept", "text/html,application/xhtml+xml,application/xml;q=0.9,image/avif,image/webp,image/apng,*/*;q=0.8,application/signed-exchange;v=b3;q=0.7"),
   ("Accept-Language", "en-US,en;q=0.9"),
   ("Cache-Control", "max-age=0"),
   ("Sec-Ch-Ua", "\"Google Chrome\";v=\"137\", \"Chromium\";v=\"137\", \"Not/A)Brand\";v=\"24\""),
   ("Sec-Ch-Ua-Mobile", "?0"),
   ("Sec-Ch-Ua-Platform", "\"macOS\""),
   ("Sec-Fetch-Dest", "document"),
   ("Sec-Fetch-Mode", "navigate"),
   ("Sec-Fetch-Site", "none"),
   ("Sec-Fetch-User", "?1"),
   ("Upgrade-Insecure-Requests", "1"),
   ("Connection", "keep-alive")]

/-- Attempt of the regex `"([A-Z]/[A-Z0-9]+)"` at the start of `l`, returning
the capture group.  A greedy `[A-Z0-9]+` takes the maximal run; since no run
character is a quotation mark, backtracking can only succeed when the
character right after the maximal run is the closing quotation mark. -/
def matchAt (l : List Char) : Option (List Char) :=
  match l with
  | q :: c :: s :: rest =>
    if q = '"' && isUpperCh c && s = '/' then
      match rest.takeWhile isUpperDigit, rest.dropWhile isUpperDigit with
      | r :: rs, '"' :: _ => some (c :: '/' :: r :: rs)
      | _, _ => none
    else none
  | _ => none

/-- Python `re.search` semantics for the token pattern: try `matchAt` at each
start position from the left, returning the first success. -/
def searchTokenAux : List Char → Option (List Char)
  | [] => none
  | c :: rest =>
    match matchAt (c :: rest) with
    | some r => some r
    | none => searchTokenAux rest

/-- Messages the script prints, one constructor per `print` call site. -/
inductive Msg where
  /-- Python: `No audio token found for '{query}'` -/
  | noTokenFound (query : String)
  /-- Python: `Error fetching page for '{query}': {e}` -/
  | fetchPageError (query : String) (err : String)
  /-- Python: `Found audio token: {token}` -/
  | foundToken (token : String)
  /-- Python: `Downloading audio for '{query}'...` -/
  | downloadingAudio (query : String)
  /-- Python: `Error downloading audio: {e}` -/
  | downloadError (err : String)
  /-- Python: `Successfully saved: {output_path}` -/
  | savedOk (path : String)
  /-- Python: `Done!` -/
  | done
  deriving Repr, DecidableEq

/-- Observable actions of a run, in program order. -/
inductive Action where
  /-- `requests.get(url, timeout=10, headers=HEADERS)` -/
  | getPage (url : String) (timeout : Nat) (headers : List (String × String))
  /-- `requests.get(audio_url, timeout=30)` — no headers argument. -/
  | getAudio (url : String) (timeout : Nat)
  /-- `Path(path).mkdir(parents=..., exist_ok=...)` with its two flags. -/
  | mkdirParents (path : String) (parents : Bool) (existOk : Bool)
  /-- `open(path, 'wb')` followed by `f.write(content)`. -/
  | writeFile (path : String) (content : List Nat)
  /-- a `print(...)` call. -/
  | print (m : Msg)
  deriving Repr, DecidableEq

/-- Whether an action is the dictionary-page GET. -/
def Action.isGetPage : Action → Bool
  | .getPage _ _ _ => true
  | _ => false

/-- Whether an action is the audio-file GET. -/
def Action.isGetAudio : Action → Bool
  | .getAudio _ _ => true
  | _ => false

/-- Whether an action is a directory creation. -/
def Action.isMkdir : Action → Bool
  | .mkdirParents _ _ _ => true
  | _ => false

/-- Whether an action is a file write. -/
def Action.isWrite : Action → Bool
  | .writeFile _ _ => true
  | _ => false

/-- Whether an action is a print. -/
def Action.isPrint : Action → Bool
  | .print _ => true
  | _ => false

/-- Filesystem failures: an `OSError` raised by `mkdir` or by `open`/`write`.
The script never catches these (its `except` clause only catches
`requests.exceptions.RequestException`), so they propagate. -/
inductive FsError where
  | mkdirFailed (path : String)
  | writeFailed (path : String)
  deriving Repr, DecidableEq

/-- How the outside world answers the run's calls.  `page`/`audio` are the
outcomes of the two HTTP GETs: `.error e` collapses transport failures and
`raise_for_status` on a non-success status (both raise a
`RequestException`); `.ok` carries the body.  `mkdirOk`/`writeOk` tell
whether the filesystem calls succeed. -/
structure Env where
  page : Except String String
  audio : Except String (List Nat)
  mkdirOk : Bool
  writeOk : Bool

/-- Embedding of `get_audio_token(query)`: build the percent-encoded URL,
GET it, and scan the body for the first token-regex match; returns the
token or `none`, plus the performed actions. -/
def get_audio_token (env : Env) (query : String) :
    Option String × List Action :=
  let url := "https://www.vocabulary.com/dictionary/" ++ quote (pyStrip query)
  match env.page with
  | .error e =>
    (none, [.getPage url 10 HEADERS, .print (.fetchPageError query e)])
  | .ok body =>
    match searchTokenAux body.data with
    | some tok => (some (String.mk tok), [.getPage url 10 HEADERS])
    | none =>
      (none, [.getPage url 10 HEADERS, .print (.noTokenFound query)])

/-- First substitution of `download_audio`:
`re.sub(r'[^\w\s-]', '', query.strip())`. -/
def stripSpecial (query : String) : List Char :=
  (pyStrip query).data.filter (fun c => isWordChar c || isReSpace c || c = '-')

/-- Second substitution, `re.sub(r'[-\s]+', '_', s)`: every maximal run of
hyphens/whitespace becomes one underscore.  The flag records whether the
previous character belonged to such a run. -/
def collapseAux : Bool → List Char → List Char
  | _, [] => []
  | inRun, c :: rest =>
    if isDashSpace c then
      if inRun then collapseAux true rest
      else '_' :: collapseAux true rest
    else c :: collapseAux false rest

/-- Replace every maximal `[-\s]+` run by a single underscore. -/
def collapseRuns (l : List Char) : List Char := collapseAux false l

/-- The `safe_filename` value computed by `download_audio`. -/
def safe_filename (query : String) : String :=
  String.mk (collapseRuns (stripSpecial query))

/-- The full output filename: `f"{safe_filename}.mp3"`. -/
def audioFilename (query : String) : String := safe_filename query ++ ".mp3"

/-- Embedding of `download_audio(token, query, output_dir)`.  `Except.error`
models an uncaught `OSError` escaping the function; `.ok b` is its Python
return value `b`.  The output path `Path(output_dir) / filename` is modelled
as `output_dir ++ "/" ++ filename`, whose parent is `output_dir`. -/
def download_audio (env : Env) (token query output_dir : String) :
    Except FsError Bool × List Action :=
  let audio_url := "https://audio.vocabulary.com/1.0/us/" ++ token ++ ".mp3"
  let output_path := output_dir ++ "/" ++ audioFilename query
  let pre : List Action := [.print (.downloadingAudio query)]
  match env.audio with
  | .error e =>
    (.ok false, pre ++ [.getAudio audio_url 30, .print (.downloadError e)])
  | .ok content =>
    if env.mkdirOk then
      if env.writeOk then
        (.ok true,
          pre ++ [.getAudio audio_url 30, .mkdirParents output_dir true true,
            .writeFile output_path content, .print (.savedOk output_path)])
      else
        (.error (.writeFailed output_path),
          pre ++ [.getAudio audio_url 30, .mkdirParents output_dir true true])
    else
      (.error (.mkdirFailed output_dir),
        pre ++ [.getAudio audio_url 30])

/-- Embedding of `main()` after argument parsing: run the resolver, exit 1 on
`None`, run the fetcher, exit 1 on `False`.  An uncaught exception from
`download_audio` terminates CPython with exit status 1 without reaching the
remaining statements; that exit code is the first component. -/
def main (env : Env) (query output_dir : String) : Nat × List Action :=
  match (get_audio_token env query).fst with
  | none => (1, (get_audio_token env query).snd)
  | some token =>
    match (download_audio env token query output_dir).fst with
    | .ok true =>
      (0, (get_audio_token env query).snd
        ++ Action.print (.foundToken token)
          :: (download_audio env token query output_dir).snd
        ++ [Action.print .done])
    | .ok false =>
      (1, (get_audio_token env query).snd
        ++ Action.print (.foundToken token)
          :: (download_audio env token query output_dir).snd)
    | .error _ =>
      (1, (get_audio_token env query).snd
        ++ Action.print (.foundToken token)
          :: (download_audio env token query output_dir).snd)

/-- Filename derivation as claim C1 words it: strip every character that is
not alphanumeric, whitespace, or hyphen (note: no underscore), collapse
hyphen/whitespace runs to one underscore, append `.mp3`. -/
def claimC1Filename (query : String) : String :=
  String.mk (collapseRuns
    ((pyStrip query).data.filter
      (fun c => c.isAlphanum || isReSpace c || c = '-'))) ++ ".mp3"

/-- Filename derivation as the amended claim words it: strip every character
that is not a word character (alphanumeric or underscore), whitespace, or
hyphen, collapse hyphen/whitespace runs to one underscore, append `.mp3`. -/
def amendedFilename (query : String) : String :=
  String.mk (collapseRuns
    ((pyStrip query).data.filter
      (fun c => (c.isAlphanum || c = '_') || isReSpace c || c = '-'))) ++ ".mp3"

/-- A page body whose first quoted token-shaped substring is the `data-audio`
attribute value, with a second token-shaped quoted value later. -/
def pageBodyC2 : String :=
  "<div data-audio=\"C/BNUT8S5S2HDK\"></div><a ref=\"A/Z9X\"></a>"

/-- World in which both GETs and both filesystem calls succeed. -/
def envOk : Env :=
  { page := .ok pageBodyC2, audio := .ok [77, 80, 51], mkdirOk := true,
    writeOk := true }

/-- World whose page contains no token-shaped substring. -/
def envNoToken : Env :=
  { page := .ok "<html>hello</html>", audio := .ok [77], mkdirOk := true,
    writeOk := true }

/-- World in which the audio GET fails (HTTP error status or transport). -/
def envAudioFail : Env :=
  { page := .ok pageBodyC2, audio := .error "404 Client Error",
    mkdirOk := true, writeOk := true }

/-- World in which the directory creation raises an `OSError`. -/
def envMkdirFail : Env :=
  { page := .ok pageBodyC2, audio := .ok [1, 2], mkdirOk := false,
    writeOk := true }

/-- Every character surviving `stripSpecial` is a word character, whitespace,
or a hyphen. -/
theorem stripSpecial_all (q : String) :
    (stripSpecial q).all (fun c => isWordChar c || isReSpace c || c = '-')
      = true := by
  apply List.all_eq_true.mpr
  intro c hc
  unfold stripSpecial at hc
  exact (List.mem_filter.mp hc).2

/-- Collapsing a list of word/space/hyphen characters yields only
alphanumerics and underscores. -/
theorem collapseAux_all (l : List Char) (b : Bool)
    (h : l.all (fun c => isWordChar c || isReSpace c || c = '-') = true) :
    (collapseAux b l).all (fun c => c.isAlphanum || c = '_') = true := by
  induction l generalizing b with
  | nil => cases b <;> simp [collapseAux]
  | cons c rest ih =>
    simp only [List.all_cons, Bool.and_eq_true] at h
    by_cases hd : isDashSpace c = true
    · cases b <;>
        simp [collapseAux, hd, List.all_cons, ih true h.2]
    · have hd' : (decide (c = '-') || isReSpace c) = false := by
        simpa [isDashSpace] using hd
      have h1 : isWordChar c = true := by
        rcases Bool.or_eq_false_iff.mp hd' with ⟨hdash, hsp⟩
        have := h.1
        simp only [hsp, hdash, Bool.or_false] at this
        exact this
      have h2 : (c.isAlphanum || decide (c = '_')) = true := by
        simpa [isWordChar] using h1
      simp [collapseAux, hd, List.all_cons, h2, ih false h.2]

/-- C1 counterexample: the claim says the filename is obtained by stripping
every character that is not alphanumeric, whitespace, or hyphen, but the
code's rule `[^\w\s-]` also keeps underscores: on query `a_b` the code
produces `a_b.mp3` while the claimed rule produces `ab.mp3`. -/
theorem c1_counterexample :
    audioFilename "a_b" = "a_b.mp3" ∧ claimC1Filename "a_b" = "ab.mp3" ∧
      audioFilename "a_b" ≠ claimC1Filename "a_b" := by
  refine ⟨rfl, rfl, ?_⟩
  decide

/-- C1 (amended): the derived filename is computed by trimming the query,
stripping every character that is not a word character (alphanumeric or
underscore), whitespace, or hyphen, collapsing every run of
hyphens/whitespace into a single underscore, and appending `.mp3`; the
filename stem then contains only alphanumerics and underscores. -/
theorem c1_filename_amended (q : String) :
    audioFilename q = amendedFilename q ∧
      (safe_filename q).data.all (fun c => c.isAlphanum || c = '_') = true := by
  constructor
  · rfl
  · exact collapseAux_all (stripSpecial q) false (stripSpecial_all q)

/-- C1 witness: the amended statement at the concrete query `a_b c!`. -/
theorem c1_filename_amended_witness :
    audioFilename "a_b c!" = amendedFilename "a_b c!" ∧
      (safe_filename "a_b c!").data.all
        (fun c => c.isAlphanum || c = '_') = true :=
  c1_filename_amended "a_b c!"

/-- C8: for the query `machine learning` the derived output filename is
exactly `machine_learning.mp3`. -/
theorem c8_machine_learning_filename :
    audioFilename "machine learning" = "machine_learning.mp3" := by
  decide

/-- C10: a trimmed query with no word characters, whitespace, or hyphens
(for example `!!!`) yields the empty stem, so the fetcher writes the
downloaded bytes to a file named exactly `.mp3` inside the output directory
instead of failing. -/
theorem c10_empty_stem (env : Env) (tok outdir : String) (content : List Nat)
    (ha : env.audio = .ok content) (hm : env.mkdirOk = true)
    (hw : env.writeOk = true) :
    audioFilename "!!!" = ".mp3" ∧
      (download_audio env tok "!!!" outdir).fst = .ok true ∧
      Action.writeFile (outdir ++ "/.mp3") content
        ∈ (download_audio env tok "!!!" outdir).snd ∧
      (∀ q : String,
        (pyStrip q).data.all
          (fun c => !(isWordChar c || isReSpace c || c = '-')) = true →
        audioFilename q = ".mp3") := by
  have hpath : outdir ++ "/" ++ audioFilename "!!!" = outdir ++ "/.mp3" := by
    rw [show audioFilename "!!!" = ".mp3" from rfl, String.append_assoc]
    congr 1
  refine ⟨rfl, ?_, ?_, ?_⟩
  · simp [download_audio, ha, hm, hw]
  · simp [download_audio, ha, hm, hw, hpath]
  · intro q hq
    have hfil : stripSpecial q = [] := by
      apply List.filter_eq_nil_iff.mpr
      intro c hc
      have := List.all_eq_true.mp hq c hc
      simpa using this
    unfold audioFilename safe_filename collapseRuns
    rw [hfil]
    decide

/-- C10 witness: the statement at a concrete all-succeeding world. -/
theorem c10_empty_stem_witness :
    audioFilename "!!!" = ".mp3" ∧
      (download_audio envOk "C/X" "!!!" "out").fst = .ok true ∧
      Action.writeFile ("out" ++ "/.mp3") [77, 80, 51]
        ∈ (download_audio envOk "C/X" "!!!" "out").snd ∧
      (∀ q : String,
        (pyStrip q).data.all
          (fun c => !(isWordChar c || isReSpace c || c = '-')) = true →
        audioFilename q = ".mp3") :=
  c10_empty_stem envOk "C/X" "out" [77, 80, 51] rfl rfl rfl

/-- The scan returns `some t` exactly when the pattern matches at some
position whose every earlier position fails: leftmost-match semantics. -/
theorem searchTokenAux_first_match (l t : List Char) :
    searchTokenAux l = some t ↔
      ∃ i, matchAt (l.drop i) = some t ∧
        ∀ j, j < i → matchAt (l.drop j) = none := by
  induction l with
  | nil =>
    constructor
    · intro h
      exact absurd h (by simp [searchTokenAux])
    · rintro ⟨i, hi, -⟩
      rw [List.drop_nil] at hi
      exact absurd hi (by simp [matchAt])
  | cons c rest ih =>
    cases hm : matchAt (c :: rest) with
    | some r =>
      have hL : searchTokenAux (c :: rest) = some r := by
        simp [searchTokenAux, hm]
      rw [hL]
      constructor
      · intro h
        refine ⟨0, ?_, ?_⟩
        · rw [List.drop_zero, hm]
          exact h
        · intro j hj
          exact absurd hj (Nat.not_lt_zero j)
      · rintro ⟨i, hi, hall⟩
        cases i with
        | zero =>
          rw [List.drop_zero, hm] at hi
          exact hi
        | succ k =>
          have h0 := hall 0 (Nat.succ_pos k)
          rw [List.drop_zero, hm] at h0
          exact absurd h0 (by simp)
    | none =>
      have hL : searchTokenAux (c :: rest) = searchTokenAux rest := by
        simp [searchTokenAux, hm]
      rw [hL, ih]
      constructor
      · rintro ⟨i, hi, hall⟩
        refine ⟨i + 1, ?_, ?_⟩
        · rw [List.drop_succ_cons]
          exact hi
        · intro j hj
          cases j with
          | zero =>
            rw [List.drop_zero]
            exact hm
          | succ k =>
            rw [List.drop_succ_cons]
            exact hall k (by omega)
      · rintro ⟨i, hi, hall⟩
        cases i with
        | zero =>
          rw [List.drop_zero, hm] at hi
          exact absurd hi (by simp)
        | succ k =>
          refine ⟨k, ?_, ?_⟩
          · rw [List.drop_succ_cons] at hi
            exact hi
          · intro j hj
            have := hall (j + 1) (by omega)
            rw [List.drop_succ_cons] at this
            exact this

/-- C2: on a successful page fetch the resolver returns the first substring
matching the quoted token pattern (leftmost-match semantics), and on the
body containing `data-audio="C/BNUT8S5S2HDK"` it extracts exactly
`C/BNUT8S5S2HDK` even though a later quoted match `A/Z9X` exists at
position 46 of the body. -/
theorem c2_first_token_match :
    (∀ l t : List Char, searchTokenAux l = some t ↔
        ∃ i, matchAt (l.drop i) = some t ∧
          ∀ j, j < i → matchAt (l.drop j) = none) ∧
      (get_audio_token envOk "nut").fst = some "C/BNUT8S5S2HDK" ∧
      matchAt (pageBodyC2.data.drop 46) = some ("A/Z9X".data) :=
  ⟨searchTokenAux_first_match, by decide, by decide⟩

/-- C2 witness: the concrete extraction conjunct applied directly. -/
theorem c2_first_token_match_witness :
    (get_audio_token envOk "nut").fst = some "C/BNUT8S5S2HDK" :=
  c2_first_token_match.2.1

/-- C3: when the fetched page contains no token-shaped substring, the
resolver returns `none` and prints the not-found message (an absence, not an
exception), and the process exits with status 1 without ever issuing the
audio GET. -/
theorem c3_no_token_exits (env : Env) (q outdir body : String)
    (hp : env.page = .ok body) (hn : searchTokenAux body.data = none) :
    (get_audio_token env q).fst = none ∧
      Action.print (.noTokenFound q) ∈ (get_audio_token env q).snd ∧
      (main env q outdir).fst = 1 ∧
      (main env q outdir).snd.all (fun a => !a.isGetAudio) = true := by
  refine ⟨?_, ?_, ?_, ?_⟩ <;>
    simp [main, get_audio_token, hp, hn, Action.isGetAudio]

/-- C3 witness: the statement at the concrete token-free world. -/
theorem c3_no_token_exits_witness :
    (get_audio_token envNoToken "nut").fst = none ∧
      Action.print (.noTokenFound "nut") ∈ (get_audio_token envNoToken "nut").snd ∧
      (main envNoToken "nut" "out").fst = 1 ∧
      (main envNoToken "nut" "out").snd.all (fun a => !a.isGetAudio) = true :=
  c3_no_token_exits envNoToken "nut" "out" "<html>hello</html>" rfl (by decide)

/-- C4: when the resolver succeeds but the audio GET fails (error status or
transport failure), the process exits with status 1 and neither the
directory creation nor the file write ever happens. -/
theorem c4_audio_fetch_error (env : Env) (q outdir tok e : String)
    (ht : (get_audio_token env q).fst = some tok) (ha : env.audio = .error e) :
    (main env q outdir).fst = 1 ∧
      (main env q outdir).snd.all (fun a => !a.isWrite && !a.isMkdir) = true := by
  unfold main
  unfold get_audio_token at ht ⊢
  cases hp : env.page with
  | error er =>
    simp only [hp] at ht
    exact absurd ht (by simp)
  | ok body =>
    simp only [hp] at ht ⊢
    cases hs : searchTokenAux body.data with
    | none =>
      simp only [hs] at ht
      exact absurd ht (by simp)
    | some tk =>
      simp only [hs] at ht ⊢
      simp [download_audio, ha, Action.isWrite, Action.isMkdir]

/-- C4 witness: the statement at the concrete audio-failing world. -/
theorem c4_audio_fetch_error_witness :
    (main envAudioFail "nut" "out").fst = 1 ∧
      (main envAudioFail "nut" "out").snd.all
        (fun a => !a.isWrite && !a.isMkdir) = true :=
  c4_audio_fetch_error envAudioFail "nut" "out" "C/BNUT8S5S2HDK"
    "404 Client Error" (by decide) rfl

/-- C6: for every query and every world, the resolver performs exactly one
page GET, at the fixed dictionary base URL followed by the trimmed and
percent-encoded query, with the fixed browser-emulation header set and a
timeout of 10. -/
theorem c6_resolver_request (env : Env) (q : String) :
    ((get_audio_token env q).snd.filter Action.isGetPage) =
      [Action.getPage
        ("https://www.vocabulary.com/dictionary/" ++ quote (pyStrip q))
        10 HEADERS] := by
  unfold get_audio_token
  cases hp : env.page with
  | error er => simp [Action.isGetPage, Action.isPrint]
  | ok body =>
    cases hs : searchTokenAux body.data <;> simp [hs, Action.isGetPage]

/-- C7: for every token and every world, the fetcher performs exactly one
audio GET, at the fixed template with the token interpolated directly (no
percent-encoding), with a timeout of 30; the `getAudio` action carries no
header set, matching the call's default headers. -/
theorem c7_fetcher_request (env : Env) (tok q outdir : String) :
    ((download_audio env tok q outdir).snd.filter Action.isGetAudio) =
      [Action.getAudio
        ("https://audio.vocabulary.com/1.0/us/" ++ tok ++ ".mp3") 30] := by
  unfold download_audio
  cases ha : env.audio with
  | error e => simp [Action.isGetAudio]
  | ok content =>
    cases hm : env.mkdirOk <;> cases hw : env.writeOk <;>
      simp [Action.isGetAudio]

/-- C9: on a successful run the fetcher's exact action sequence first creates
the output directory with `parents=True` (all missing intermediate segments)
and `exist_ok=True` (idempotent), and only then writes the file at
`outputDir/filename`. -/
theorem c9_mkdir_then_write (env : Env) (tok q outdir : String)
    (content : List Nat) (ha : env.audio = .ok content)
    (hm : env.mkdirOk = true) (hw : env.writeOk = true) :
    (download_audio env tok q outdir).fst = .ok true ∧
      (download_audio env tok q outdir).snd =
        [Action.print (.downloadingAudio q),
         Action.getAudio
           ("https://audio.vocabulary.com/1.0/us/" ++ tok ++ ".mp3") 30,
         Action.mkdirParents outdir true true,
         Action.writeFile (outdir ++ "/" ++ audioFilename q) content,
         Action.print (.savedOk (outdir ++ "/" ++ audioFilename q))] := by
  refine ⟨?_, ?_⟩ <;> simp [download_audio, ha, hm, hw]

/-- C9 witness: the statement at the concrete all-succeeding world. -/
theorem c9_mkdir_then_write_witness :
    (download_audio envOk "C/BNUT8S5S2HDK" "nut" "out").fst = .ok true ∧
      (download_audio envOk "C/BNUT8S5S2HDK" "nut" "out").snd =
        [Action.print (.downloadingAudio "nut"),
         Action.getAudio
           ("https://audio.vocabulary.com/1.0/us/" ++ "C/BNUT8S5S2HDK" ++ ".mp3") 30,
         Action.mkdirParents "out" true true,
         Action.writeFile ("out" ++ "/" ++ audioFilename "nut") [77, 80, 51],
         Action.print (.savedOk ("out" ++ "/" ++ audioFilename "nut"))] :=
  c9_mkdir_then_write envOk "C/BNUT8S5S2HDK" "nut" "out" [77, 80, 51]
    rfl rfl rfl

/-- C5 counterexample: a directory-creation failure is not handled at the
point of occurrence — `download_audio` propagates it as an uncaught
exception (`Except.error`, since the `except` clause only catches
`RequestException`) and the only message the program itself prints is the
initial progress line, no descriptive error message. -/
theorem c5_counterexample :
    (download_audio envMkdirFail "C/X" "word" "out").fst
        = Except.error (.mkdirFailed "out") ∧
      ((download_audio envMkdirFail "C/X" "word" "out").snd.filter
          Action.isPrint)
        = [Action.print (.downloadingAudio "word")] := by
  exact ⟨rfl, rfl⟩

/-- C5 (amended): a filesystem error (directory creation or file write
failure) is not caught by the program: it propagates out of
`download_audio` as an uncaught exception, which terminates the process
with a non-zero status; it is not retried or recovered into a fallback path
(at most one directory-creation attempt, exactly one audio GET, and no
completed file write). -/
theorem c5_fs_error_amended (env : Env) (tok q outdir : String)
    (content : List Nat) (ha : env.audio = .ok content)
    (hf : env.mkdirOk = false ∨ env.writeOk = false) :
    (∃ e, (download_audio env tok q outdir).fst = Except.error e) ∧
      ((get_audio_token env q).fst = some tok →
        (main env q outdir).fst = 1) ∧
      ((download_audio env tok q outdir).snd.filter
        Action.isMkdir).length ≤ 1 ∧
      ((download_audio env tok q outdir).snd.filter
        Action.isGetAudio).length = 1 ∧
      (download_audio env tok q outdir).snd.all (fun a => !a.isWrite)
        = true := by
  rcases hf with hmk | hwr
  · refine ⟨⟨.mkdirFailed outdir, ?_⟩, fun ht => ?_, ?_, ?_, ?_⟩ <;>
      simp [main, download_audio, ha, hmk, Action.isMkdir,
        Action.isGetAudio, Action.isWrite, *]
  · cases hmk : env.mkdirOk <;>
      [ (refine ⟨⟨.mkdirFailed outdir, ?_⟩, fun ht => ?_, ?_, ?_, ?_⟩ <;>
          simp [main, download_audio, ha, hmk, hwr, Action.isMkdir,
            Action.isGetAudio, Action.isWrite, *]);
        (refine ⟨⟨.writeFailed (outdir ++ "/" ++ audioFilename q), ?_⟩,
            fun ht => ?_, ?_, ?_, ?_⟩ <;>
          simp [main, download_audio, ha, hmk, hwr, Action.isMkdir,
            Action.isGetAudio, Action.isWrite, *])]

/-- C5 witness: the amended statement at the concrete mkdir-failing world. -/
theorem c5_fs_error_amended_witness :
    (∃ e, (download_audio envMkdirFail "C/BNUT8S5S2HDK" "nut" "out").fst
        = Except.error e) ∧
      ((get_audio_token envMkdirFail "nut").fst = some "C/BNUT8S5S2HDK" →
        (main envMkdirFail "nut" "out").fst = 1) ∧
      ((download_audio envMkdirFail "C/BNUT8S5S2HDK" "nut" "out").snd.filter
        Action.isMkdir).length ≤ 1 ∧
      ((download_audio envMkdirFail "C/BNUT8S5S2HDK" "nut" "out").snd.filter
        Action.isGetAudio).length = 1 ∧
      (download_audio envMkdirFail "C/BNUT8S5S2HDK" "nut" "out").snd.all
        (fun a => !a.isWrite) = true :=
  c5_fs_error_amended envMkdirFail "C/BNUT8S5S2HDK" "nut" "out" [1, 2]
    rfl (Or.inl rfl)

end Vocab
